import Mathlib



/-!
Verification development for the emergency-bed booking application.

The core under study is the bed-inventory logic of the two booking route
handlers (`slotbookig` in `project/main.py`, the legacy handler, and
`slotbooking` in `project/enhanced_main.py`, the enhanced handler), the
admin edit route `hedit` (`project/main.py`), and the input-validation
service (`project/services/validation_service.py`).  Each Python function
is translated into an executable Lean function over an explicit database
state; SQLAlchemy `filter_by(...).first()` becomes `List.find?`, and a
commit of a mutated row becomes `updateFirst` on the hospital list.
-/



/-- Replace the first element of the list satisfying `p` by its image
under `f`; later matches are untouched.  This is the semantics of
mutating the row returned by `filter_by(...).first()` and committing. -/
def updateFirst {α : Type} (p : α → Bool) (f : α → α) : List α → List α
  | [] => []
  | x :: xs => if p x then f x :: xs else x :: updateFirst p f xs

namespace ValidationService

/-! Shallow embedding of `project/services/validation_service.py`
(`class InputValidator`).  Form data arrives as a dictionary of strings;
an absent key (`data.get(...)` returning `None`) is modelled as `none`.
The third-party `email_validator` library called by
`InputValidator.validate_email` is not part of this repository, so every
function that reaches it is parameterized by an `emailOk` predicate. -/

/-- Characters of Python `str.strip()`: leading and trailing whitespace
removed.  Stated over the character list (rather than `String.trim`) so
that closed instances reduce inside the kernel. -/
def stripChars (cs : List Char) : List Char :=
  ((cs.dropWhile Char.isWhitespace).reverse.dropWhile Char.isWhitespace).reverse

/-- Python `str.strip()`. -/
def strip (s : String) : String :=
  String.mk (stripChars s.toList)

/-- Python `str.upper()` (ASCII letters; stated over the character list
so that closed instances reduce inside the kernel). -/
def upper (s : String) : String :=
  String.mk (s.toList.map Char.toUpper)

/-- Python `str.lower()` (ASCII letters; stated over the character list
so that closed instances reduce inside the kernel). -/
def lower (s : String) : String :=
  String.mk (s.toList.map Char.toLower)

/-- Digit run as accepted by Python's `int(...)` on strings: at least one
ASCII digit, with single underscores allowed between digits. -/
def digitsU : List Char → Bool
  | [] => false
  | [c] => c.isDigit
  | c :: '_' :: rest2 => c.isDigit && digitsU rest2
  | c :: d :: rest => c.isDigit && digitsU (d :: rest)

/-- Numeric value of a digit run, ignoring underscore separators. -/
def natVal (cs : List Char) : Nat :=
  cs.foldl (fun a c => if c = '_' then a else a * 10 + (c.toNat - 48)) 0

/-- Python's `int(s)` for a string argument: surrounding whitespace is
stripped, then an optional sign followed by a digit run (ASCII digits
modelled; Python additionally accepts unicode digits).  `none` models the
`ValueError` raised on anything else. -/
def pyInt (s : String) : Option Int :=
  match stripChars s.toList with
  | '+' :: rest => if digitsU rest then some (natVal rest) else none
  | '-' :: rest => if digitsU rest then some (-(natVal rest : Int)) else none
  | cs => if digitsU cs then some (natVal cs) else none

/-- `InputValidator.validate_spo2`: `int(spo2)` must land in `[70, 100]`;
a `ValueError`/`TypeError` (unparsable string, or a `None` argument)
yields `False`. -/
def validate_spo2 (spo2 : Option String) : Bool :=
  match spo2 with
  | none => false
  | some s =>
    match pyInt s with
    | none => false
    | some value => 70 ≤ value && value ≤ 100

/-- `InputValidator.validate_name`: length 2..50 and the anchored pattern
admitting ASCII letters, whitespace, hyphen and dot. -/
def validate_name (name : String) : Bool :=
  if name.length < 2 || name.length > 50 then false
  else name.toList.all fun c => c.isAlpha || c.isWhitespace || c = '-' || c = '.'

/-- Core of the `phone` pattern after cleaning: optional leading `+`
already removed, first digit 1-9, at most 15 further digits. -/
def phoneCore : List Char → Bool
  | [] => false
  | c :: rest => ('1' ≤ c && c ≤ '9') && rest.length ≤ 15 && rest.all Char.isDigit

/-- `InputValidator.validate_phone`: whitespace, dashes and parentheses
are removed, then the anchored pattern with an optional `+` sign. -/
def validate_phone (phone : String) : Bool :=
  if phone = "" then false
  else
    match phone.toList.filter (fun c => !(c.isWhitespace || c = '-' || c = '(' || c = ')')) with
    | '+' :: rest => phoneCore rest
    | cs => phoneCore cs

/-- `InputValidator.validate_hospital_code`: the uppercased code must be
3 to 10 characters, each an uppercase letter or digit. -/
def validate_hospital_code (code : String) : Bool :=
  if code = "" then false
  else
    let u := upper code
    3 ≤ u.length && u.length ≤ 10 &&
      u.toList.all fun c => ('A' ≤ c && c ≤ 'Z') || c.isDigit

/-- One character of `html.escape` (quote=True). -/
def escapeChar (c : Char) : List Char :=
  if c = '&' then "&amp;".toList
  else if c = '<' then "&lt;".toList
  else if c = '>' then "&gt;".toList
  else if c = '"' then "&quot;".toList
  else if c = '\'' then "&#x27;".toList
  else [c]

/-- `html.escape` with `quote=True`, as invoked by `sanitize_input`. -/
def htmlEscape (s : String) : String :=
  String.mk (s.toList.foldr (fun c acc => escapeChar c ++ acc) [])

/-- `InputValidator.sanitize_input`: strip surrounding whitespace, then
HTML-escape. -/
def sanitize_input (text : String) : String :=
  if text = "" then "" else htmlEscape (strip text)

/-- The keys of the booking form dictionary handed to
`validate_bed_booking` (`form.data`); an absent key is `none`.  The
enhanced form's `spo2` is an `IntegerField`; its integer value is
modelled by its decimal string. -/
structure BookingData where
  bedtype : Option String
  hcode : Option String
  pname : Option String
  pphone : Option String
  paddress : Option String
  email : Option String
  spo2 : Option String
deriving Repr, DecidableEq

/-- The `errors` dictionary built by `validate_bed_booking`: the
`required` entry carries the missing-field names, the remaining flags
record whether the corresponding per-field entry was set. -/
structure BookingErrors where
  missing : List String
  pname : Bool
  pphone : Bool
  email : Bool
  hcode : Bool
  spo2 : Bool
  bedtype : Bool
deriving Repr, DecidableEq

/-- The dictionary returned by `validate_bed_booking`. -/
structure ValidationResult where
  valid : Bool
  errors : BookingErrors
  sanitized_data : BookingData
deriving Repr, DecidableEq

/-- `validate_required_fields`'s per-field test: missing when absent, and
when empty or whitespace-only (`not value or not value.strip()`). -/
def fieldMissing : Option String → Bool
  | none => true
  | some s => strip s = ""

/-- Python truthiness of `data.get(field)` for an optional string: present
and non-empty. -/
def isTruthy : Option String → Bool
  | none => false
  | some s => s != ""

/-- The `valid_bed_types` list of `validate_bed_booking`. -/
def valid_bed_types : List String := ["Normal", "HICU", "ICU", "Ventilator"]

/-- `InputValidator.validate_bed_booking`.  `emailOk` stands for the
external `email_validator`-backed `validate_email`. -/
def validate_bed_booking (emailOk : String → Bool) (data : BookingData) :
    ValidationResult :=
  let missing :=
    (if fieldMissing data.bedtype then ["bedtype"] else []) ++
    (if fieldMissing data.hcode then ["hcode"] else []) ++
    (if fieldMissing data.pname then ["pname"] else []) ++
    (if fieldMissing data.pphone then ["pphone"] else []) ++
    (if fieldMissing data.paddress then ["paddress"] else []) ++
    (if fieldMissing data.email then ["email"] else [])
  let pnameErr := isTruthy data.pname && !(validate_name (data.pname.getD ""))
  let pphoneErr := isTruthy data.pphone && !(validate_phone (data.pphone.getD ""))
  let emailErr := isTruthy data.email && !(emailOk (data.email.getD ""))
  let hcodeErr := isTruthy data.hcode && !(validate_hospital_code (data.hcode.getD ""))
  let spo2Err := isTruthy data.spo2 && !(validate_spo2 data.spo2)
  let bedtypeErr := isTruthy data.bedtype && !(valid_bed_types.contains (data.bedtype.getD ""))
  let errors : BookingErrors :=
    { missing := missing, pname := pnameErr, pphone := pphoneErr,
      email := emailErr, hcode := hcodeErr, spo2 := spo2Err, bedtype := bedtypeErr }
  { valid := missing.isEmpty && !pnameErr && !pphoneErr && !emailErr &&
      !hcodeErr && !spo2Err && !bedtypeErr
  , errors := errors
  , sanitized_data :=
      { bedtype := data.bedtype.map sanitize_input
      , hcode := data.hcode.map sanitize_input
      , pname := data.pname.map sanitize_input
      , pphone := data.pphone.map sanitize_input
      , paddress := data.paddress.map sanitize_input
      , email := data.email.map sanitize_input
      , spo2 := data.spo2.map sanitize_input } }

end ValidationService

namespace MainPy

/-! Shallow embedding of the legacy application `project/main.py`: the
SQLAlchemy models, the booking route handler `slotbookig` and the
hospital-data admin edit route `hedit`. -/

/-- `class Hospitaldata` of `project/main.py` (`hcode` is declared
`unique=True`). -/
structure Hospitaldata where
  id : Nat
  hcode : String
  hname : String
  normalbed : Int
  hicubed : Int
  icubed : Int
  vbed : Int
deriving Repr, DecidableEq

/-- `class Trig` of `project/main.py`: the audit log of bed counts. -/
structure Trig where
  hcode : String
  normalbed : Int
  hicubed : Int
  icubed : Int
  vbed : Int
  querys : String
  date : String
deriving Repr, DecidableEq

/-- `class Bookingpatient` of `project/main.py`.  The `email` column is
declared `unique=True, nullable=False`; it is `Option String` here
because the insert performed by `slotbookig` supplies no value for it
(the row's attribute is `None`). -/
structure Bookingpatient where
  bedtype : String
  hcode : String
  spo2 : String
  pname : String
  pphone : String
  paddress : String
  email : Option String
deriving Repr, DecidableEq

/-- The relational state visible to `project/main.py`. -/
structure DB where
  hospitals : List Hospitaldata
  bookings : List Bookingpatient
  trigs : List Trig
deriving Repr, DecidableEq

/-- The observable result of one `slotbookig` POST, one constructor per
exit path of the handler. -/
inductive Outcome where
  /-- flash "already email id is registered" -/
  | alreadyRegistered
  /-- flash "Hospital Code not exist" -/
  | hcodeNotExist
  /-- flash "Slot is Booked kindly Visit Hospital for Further Procedure" -/
  | booked
  /-- flash "Something Went Wrong" -/
  | somethingWentWrong
  /-- flash "Give the proper hospital Code" -/
  | properCode
  /-- the unguarded `else: pass` branch left the local `seat` unassigned,
  so evaluating `seat > 0` raises `UnboundLocalError` (HTTP 500) -/
  | unboundLocalError
deriving Repr, DecidableEq

/-- The booking route handler `slotbookig` (`project/main.py`,
lines 393-475), translated branch for branch.  Note the order of events
in the source: the per-bed-type branch decrements the counter and
**commits** before the `seat > 0` check runs; the unrecognized-bed-type
branch is `pass`, which leaves the local `seat` unassigned. -/
def slotbookig (db : DB) (email bedtype hcode spo2 pname pphone paddress : String) :
    Outcome × DB :=
  match db.bookings.find? (fun b => b.email == some email) with
  | some _ => (.alreadyRegistered, db)
  | none =>
    match db.hospitals.find? (fun h => h.hcode == hcode) with
    | none => (.hcodeNotExist, db)
    | some dbsqlb =>
      let commitRow (f : Hospitaldata → Hospitaldata) : DB :=
        { db with
          hospitals := updateFirst (fun h => h.hcode == hcode) f db.hospitals }
      let branch : Option (Int × DB) :=
        if bedtype == "NormalBed" then
          some (dbsqlb.normalbed,
            commitRow fun h => { h with normalbed := dbsqlb.normalbed - 1 })
        else if bedtype == "HICUBed" then
          some (dbsqlb.hicubed,
            commitRow fun h => { h with hicubed := dbsqlb.hicubed - 1 })
        else if bedtype == "ICUBed" then
          some (dbsqlb.icubed,
            commitRow fun h => { h with icubed := dbsqlb.icubed - 1 })
        else if bedtype == "VENTILATORBed" then
          some (dbsqlb.vbed,
            commitRow fun h => { h with vbed := dbsqlb.vbed - 1 })
        else none
      match branch with
      | none =>
        match db.hospitals.find? (fun h => h.hcode == hcode) with
        | none => (.properCode, db)
        | some _ => (.unboundLocalError, db)
      | some (seat, db1) =>
        match db1.hospitals.find? (fun h => h.hcode == hcode) with
        | none => (.properCode, db1)
        | some _ =>
          if seat > 0 then
            (.booked,
              { db1 with bookings := db1.bookings ++
                  [{ bedtype := bedtype, hcode := hcode, spo2 := spo2,
                     pname := pname, pphone := pphone, paddress := paddress,
                     email := none }] })
          else
            (.somethingWentWrong, db1)

/-- The admin edit route `hedit` (`project/main.py`, lines 310-336):
overwrite every column of the `Hospitaldata` row with the given id from
the form (bed counts arrive as form strings coerced by the database to
integers, modelled as `Int` here) and commit.  `none` models the
`AttributeError` raised when no row has that id.  No `Trig` row is
written anywhere in this handler. -/
def hedit (db : DB) (pid : Nat) (hcode hname : String) (nbed hbed ibed vb : Int) :
    Option DB :=
  match db.hospitals.find? (fun h => h.id == pid) with
  | none => none
  | some _ =>
    let edited (h : Hospitaldata) : Hospitaldata :=
      { h with hcode := ValidationService.upper hcode, hname := hname,
               normalbed := nbed, hicubed := hbed, icubed := ibed, vbed := vb }
    some { db with
           hospitals := updateFirst (fun h => h.id == pid) edited db.hospitals }

end MainPy

namespace EnhancedMain

/-! Shallow embedding of `project/enhanced_main.py`: the enhanced models
and the booking route handler `slotbooking`. -/

/-- `class Hospitaldata` of `project/enhanced_main.py` (fields not
touched by the booking flow are omitted apart from `is_verified`). -/
structure Hospitaldata where
  hcode : String
  hname : String
  normalbed : Int
  hicubed : Int
  icubed : Int
  vbed : Int
  is_verified : Bool
deriving Repr, DecidableEq

/-- `class Bookingpatient` of `project/enhanced_main.py` (the columns the
booking flow writes; `id` models the autoincrement primary key, assigned
on insert as the number of existing rows). -/
structure Bookingpatient where
  id : Nat
  bedtype : Option String
  hcode : Option String
  spo2 : Option String
  pname : Option String
  pphone : Option String
  paddress : Option String
  email : Option String
  booking_status : String
deriving Repr, DecidableEq

/-- `class Trig` of `project/enhanced_main.py`. -/
structure Trig where
  hcode : String
  normalbed : Int
  hicubed : Int
  icubed : Int
  vbed : Int
  querys : String
  date : String
  user_id : String
  ip_address : String
deriving Repr, DecidableEq

/-- The relational state visible to `project/enhanced_main.py`. -/
structure DB where
  hospitals : List Hospitaldata
  bookings : List Bookingpatient
  trigs : List Trig
deriving Repr, DecidableEq

/-- The observable result of one `slotbooking` POST, one constructor per
exit path of the handler. -/
inductive Outcome where
  /-- `form.validate_on_submit()` returned False: re-render with field errors -/
  | formInvalid
  /-- the `validator.validate_bed_booking` result was not valid -/
  | validationFailed
  /-- flash "Selected hospital not found." -/
  | notFound
  /-- flash "No ... beds available at ..." -/
  | noBeds
  /-- flash "Booking failed. Please try again." after the `except` branch
  rolled the transaction back -/
  | bookingFailed
deriving Repr, DecidableEq

/-- The `if bed_type == ...` chain computing `available_beds`
(`project/enhanced_main.py`, lines 515-525; the initializer
`available_beds = 0` is the fall-through value). -/
def bedAvail (bt : String) (h : Hospitaldata) : Int :=
  if bt = "Normal" then h.normalbed
  else if bt = "HICU" then h.hicubed
  else if bt = "ICU" then h.icubed
  else if bt = "Ventilator" then h.vbed
  else 0

/-- The `hospital.<column> -= 1` chain of the booking success path
(`project/enhanced_main.py`, lines 537-544). -/
def bedDec (bt : String) (h : Hospitaldata) : Hospitaldata :=
  if bt = "Normal" then { h with normalbed := h.normalbed - 1 }
  else if bt = "HICU" then { h with hicubed := h.hicubed - 1 }
  else if bt = "ICU" then { h with icubed := h.icubed - 1 }
  else if bt = "Ventilator" then { h with vbed := h.vbed - 1 }
  else h

/-- Symmetric increment of one category, used by the spec-modelled
`release` (`apply_delta(+1)`). -/
def bedInc (bt : String) (h : Hospitaldata) : Hospitaldata :=
  if bt = "Normal" then { h with normalbed := h.normalbed + 1 }
  else if bt = "HICU" then { h with hicubed := h.hicubed + 1 }
  else if bt = "ICU" then { h with icubed := h.icubed + 1 }
  else if bt = "Ventilator" then { h with vbed := h.vbed + 1 }
  else h

/-- The booking route handler `slotbooking` (`project/enhanced_main.py`,
lines 487-581).  `emailOk` is the external email validator used by the
validation service; `formOk` is the outcome of the WTForms/CSRF gate
`form.validate_on_submit()` (line 499, third-party library behavior);
`uid`, `ip` and `now` stand for `current_user.id`, the client IP and
`datetime.utcnow()` (available to the handler, though its only committed
transaction is unreachable).  After the availability check the handler
runs `Bookingpatient(**validation_result['sanitized_data'])`
(line 533); `sanitized_data` carries every key of `form.data`, which
always includes `form_token` (a `HiddenField` declared unconditionally
on `SecureBaseForm`, `forms/secure_forms.py` line 23) and `csrf_token`
(Flask-WTF with `CSRFProtect(app)` enabled, line 58); neither is a
`Bookingpatient` column, so the declarative constructor deterministically
raises `TypeError` before anything is staged, and the `except` branch
(lines 576-579) rolls back and flashes "Booking failed. Please try
again.".  The decrement + booking row + Trig row commit in the source
text (lines 533-560) is therefore dead code, and every path of the
handler leaves the database unchanged. -/
def slotbooking (emailOk : String → Bool) (formOk : Bool) (db : DB)
    (d : ValidationService.BookingData) (uid ip now : String) : Outcome × DB :=
  if formOk = false then (.formInvalid, db)
  else
    let vr := ValidationService.validate_bed_booking emailOk d
    if vr.valid = false then (.validationFailed, db)
    else
      let hc := d.hcode.getD ""
      match db.hospitals.find? (fun h => h.hcode == hc) with
      | none => (.notFound, db)
      | some hospital =>
        let bt := d.bedtype.getD ""
        if bedAvail bt hospital ≤ 0 then (.noBeds, db)
        else
          (.bookingFailed, db)

/-- Result of the spec-modelled `release`. -/
inductive ReleaseOutcome where
  | released
  | alreadyReleased
  | notFoundReservation
deriving Repr, DecidableEq

/-- Modelled from the spec: `release(reservation_id)` is not implemented
anywhere in the source (spec section 3 notes cancellation is "not
implemented in source").  Following spec section 4.2: look up the
reservation by id (`NotFound` when unknown), fail with `AlreadyReleased`
when already released, otherwise apply `apply_delta(+1)` to the booked
category of the booked hospital, append a ledger entry with action
`release`, and mark the reservation released, in one transaction. -/
def release (db : DB) (rid : Nat) (now : String) : ReleaseOutcome × DB :=
  match db.bookings.find? (fun b => b.id == rid) with
  | none => (.notFoundReservation, db)
  | some r =>
    if r.booking_status = "released" then (.alreadyReleased, db)
    else
      let hc := r.hcode.getD ""
      let bt := r.bedtype.getD ""
      let db2 : DB :=
        { hospitals := updateFirst (fun h => h.hcode == hc) (bedInc bt) db.hospitals
        , bookings := updateFirst (fun b => b.id == rid)
            (fun b => { b with booking_status := "released" }) db.bookings
        , trigs := db.trigs ++
            [{ hcode := hc
             , normalbed := 0, hicubed := 0, icubed := 0, vbed := 0
             , querys := "release_" ++ ValidationService.lower bt
             , date := now, user_id := "", ip_address := "" }] }
      (.released, db2)

/-- Result of the spec-modelled `book`. -/
inductive BookOutcome where
  | granted
  | invalidCategory
  | notFoundHospital
  | insufficientCapacity
deriving Repr, DecidableEq

/-- Modelled from the spec: the `book` operation of the Reservation
Authority (spec section 4.2) has no executable implementation in the
source: the enhanced handler's success transaction (enhanced_main.py
lines 531-560) is unreachable dead code (`Bookingpatient(**...)` raises
`TypeError` on the `form_token`/`csrf_token` keys on every submission).
Following the spec's words: validate the category is one of the four
recognized kinds, fail with `NotFound` for an unknown hospital code and
with `InsufficientCapacity` for a depleted category, and otherwise apply
`apply_delta(-1)` and write the ReservationRecord and the LedgerEntry in
the same transaction, over the source's enhanced data model. -/
def book (db : DB) (hcode category requester now : String) : BookOutcome × DB :=
  if (ValidationService.valid_bed_types.contains category) = false then
    (.invalidCategory, db)
  else
    match db.hospitals.find? (fun h => h.hcode == hcode) with
    | none => (.notFoundHospital, db)
    | some hospital =>
      if bedAvail category hospital ≤ 0 then (.insufficientCapacity, db)
      else
        let reservation : Bookingpatient :=
          { id := db.bookings.length
          , bedtype := some category
          , hcode := some hcode
          , spo2 := none, pname := none, pphone := none, paddress := none
          , email := some requester
          , booking_status := "granted" }
        let hospital2 := bedDec category hospital
        let ledger : Trig :=
          { hcode := hospital.hcode
          , normalbed := hospital2.normalbed
          , hicubed := hospital2.hicubed
          , icubed := hospital2.icubed
          , vbed := hospital2.vbed
          , querys := "book_" ++ ValidationService.lower category
          , date := now
          , user_id := requester
          , ip_address := "" }
        (.granted,
          { hospitals := updateFirst (fun h => h.hcode == hcode)
              (fun _ => hospital2) db.hospitals
          , bookings := db.bookings ++ [reservation]
          , trigs := db.trigs ++ [ledger] })

end EnhancedMain

namespace Concurrency

/-! Interleaving semantics for concurrent booking requests racing on one
(hospital, category) counter.  Per spec section 5 the only suspension
point is the Inventory Store boundary, so one request is split into the
two database interactions of `slotbooking` (`project/enhanced_main.py`):
the read `hospital = Hospitaldata.query.filter_by(...).first()` (which
captures the counter into the request's session), and the conditional
commit of `hospital.<column> -= 1`, which writes back the value computed
from the captured read.  The legacy `slotbookig` has the same
read-then-write shape. -/

/-- Progress of one in-flight booking request. -/
inductive Phase where
  /-- the handler has not yet queried the hospital row -/
  | ready
  /-- the handler holds the counter value it read -/
  | haveRead (v : Int)
  /-- the handler finished, either granting or rejecting -/
  | finished (granted : Bool)
deriving Repr, DecidableEq

/-- One database interaction of one request against the shared counter. -/
def step (count : Int) (ph : Phase) : Int × Phase :=
  match ph with
  | .ready => (count, .haveRead count)
  | .haveRead v => if v > 0 then (v - 1, .finished true) else (count, .finished false)
  | .finished g => (count, .finished g)

/-- Run a schedule: each entry names the request that performs its next
database interaction. -/
def runSched (count : Int) (txs : List Phase) : List Nat → Int × List Phase
  | [] => (count, txs)
  | i :: rest =>
    match txs[i]? with
    | none => runSched count txs rest
    | some ph =>
      let s := step count ph
      runSched s.1 (txs.set i s.2) rest

/-- Number of granted requests. -/
def grants (txs : List Phase) : Nat :=
  txs.countP fun ph => ph == .finished true

end Concurrency

/-! Concrete states used by the individual claims. -/

def c1db : MainPy.DB :=
  { hospitals := [{ id := 1, hcode := "AAA", hname := "Alpha", normalbed := 0,
                    hicubed := 2, icubed := 3, vbed := 4 }]
  , bookings := [], trigs := [] }

def c1db2 : MainPy.DB :=
  { hospitals := [{ id := 1, hcode := "AAA", hname := "Alpha", normalbed := -1,
                    hicubed := 2, icubed := 3, vbed := 4 }]
  , bookings := [], trigs := [] }

def c2db : MainPy.DB :=
  { hospitals := [{ id := 2, hcode := "BBB", hname := "Beta", normalbed := 6,
                    hicubed := 0, icubed := 3, vbed := 4 }]
  , bookings := [], trigs := [] }

def c4db : MainPy.DB :=
  { hospitals := [{ id := 1, hcode := "AAA", hname := "Alpha", normalbed := 5,
                    hicubed := 2, icubed := 3, vbed := 4 }]
  , bookings := []
  , trigs := [{ hcode := "AAA", normalbed := 5, hicubed := 2, icubed := 3,
                vbed := 4, querys := "initial", date := "2026-01-01" }] }

def c4db2 : MainPy.DB :=
  { hospitals := [{ id := 1, hcode := "AAA", hname := "Alpha", normalbed := 4,
                    hicubed := 2, icubed := 3, vbed := 4 }]
  , bookings := []
  , trigs := [{ hcode := "AAA", normalbed := 5, hicubed := 2, icubed := 3,
                vbed := 4, querys := "initial", date := "2026-01-01" }] }

def c7db : MainPy.DB :=
  { hospitals := [{ id := 3, hcode := "CCC", hname := "Gamma", normalbed := 5,
                    hicubed := 2, icubed := 3, vbed := 4 }]
  , bookings := [], trigs := [] }

def c9db : MainPy.DB :=
  { hospitals := [{ id := 4, hcode := "DDD", hname := "Delta", normalbed := 5,
                    hicubed := 2, icubed := 3, vbed := 4 }]
  , bookings := [], trigs := [] }

def c9r1 : MainPy.Outcome × MainPy.DB :=
  MainPy.slotbookig c9db "p@x.com" "NormalBed" "DDD" "90" "Bob Kumar"
    "9876543210" "12 Main Street"

def c9r2 : MainPy.Outcome × MainPy.DB :=
  MainPy.slotbookig c9r1.2 "p@x.com" "NormalBed" "DDD" "90" "Bob Kumar"
    "9876543210" "12 Main Street"

/-- The one-category decrement that a successful legacy booking is
claimed to perform (claim-side description: the target category drops by
one, every other field is untouched). -/
def MainPy.bookDec (bt : String) (h : MainPy.Hospitaldata) : MainPy.Hospitaldata :=
  if bt = "NormalBed" then { h with normalbed := h.normalbed - 1 }
  else if bt = "HICUBed" then { h with hicubed := h.hicubed - 1 }
  else if bt = "ICUBed" then { h with icubed := h.icubed - 1 }
  else if bt = "VENTILATORBed" then { h with vbed := h.vbed - 1 }
  else h

def sampleEDB : EnhancedMain.DB :=
  { hospitals := [{ hcode := "AAA", hname := "Alpha", normalbed := 2,
                    hicubed := 1, icubed := 1, vbed := 1, is_verified := true }]
  , bookings := [], trigs := [] }

def sampleData : ValidationService.BookingData :=
  { bedtype := some "Normal", hcode := some "AAA", pname := some "Bob Kumar",
    pphone := some "9876543210", paddress := some "12 Main Street",
    email := some "bob@example.com", spo2 := some "90" }

def sampleLDB : MainPy.DB :=
  { hospitals := [{ id := 5, hcode := "EEE", hname := "Epsilon", normalbed := 2,
                    hicubed := 1, icubed := 1, vbed := 1 }]
  , bookings := [], trigs := [] }

theorem updateFirst_nil {α : Type} (p : α → Bool) (f : α → α) :
    updateFirst p f [] = [] := rfl

theorem updateFirst_cons {α : Type} (p : α → Bool) (f : α → α) (x : α) (xs : List α) :
    updateFirst p f (x :: xs) =
      if p x then f x :: xs else x :: updateFirst p f xs := rfl

/-- When at most one element matches `p`, updating the first match is the
same as mapping the conditional update over the whole list. -/
theorem updateFirst_eq_map {α : Type} (p : α → Bool) (f : α → α) :
    ∀ l : List α, l.countP p ≤ 1 →
      updateFirst p f l = l.map (fun a => if p a then f a else a) := by
  intro l
  induction l with
  | nil => intro _; rfl
  | cons x xs ih =>
    intro hcount
    rw [List.countP_cons] at hcount
    by_cases hx : p x = true
    · rw [if_pos hx] at hcount
      have h0 : xs.countP p = 0 := by omega
      have hnone : ∀ a ∈ xs, ¬ p a = true := by
        intro a ha
        exact (List.countP_eq_zero.mp h0) a ha
      have hmap : xs.map (fun a => if p a then f a else a) = xs := by
        calc xs.map (fun a => if p a then f a else a)
            = xs.map id := by
              apply List.map_congr_left
              intro a ha
              simp [hnone a ha]
          _ = xs := List.map_id xs
      simp [updateFirst, hx, hmap]
    · rw [if_neg hx] at hcount
      have hxs : xs.countP p ≤ 1 := by omega
      simp [updateFirst, hx, ih hxs]

/-- When at most one element matches `p`, every matching member equals the
first match found by `find?`. -/
theorem eq_of_find?_of_countP_le_one {α : Type} (p : α → Bool) :
    ∀ l : List α, l.countP p ≤ 1 → ∀ x, l.find? p = some x →
      ∀ a ∈ l, p a = true → a = x := by
  intro l
  induction l with
  | nil => intro _ x hx; simp at hx
  | cons y ys ih =>
    intro hcount x hfind a ha hpa
    rw [List.countP_cons] at hcount
    by_cases hy : p y = true
    · rw [if_pos hy] at hcount
      have h0 : ys.countP p = 0 := by omega
      have hxy : x = y := by
        rw [List.find?_cons_of_pos _ hy] at hfind
        exact (Option.some_inj.mp hfind).symm
      rcases List.mem_cons.mp ha with h | h
      · rw [h, hxy]
      · exact absurd hpa (by simpa using (List.countP_eq_zero.mp h0) a h)
    · rw [if_neg hy] at hcount
      have hys : ys.countP p ≤ 1 := by omega
      rw [List.find?_cons_of_neg _ hy] at hfind
      rcases List.mem_cons.mp ha with h | h
      · exact absurd hpa (by rw [h]; simpa using hy)
      · exact ih hys x hfind a h hpa

/-- Updating the first match of `p` with the constant function returning
that very match leaves the list unchanged. -/
theorem updateFirst_find?_self {α : Type} (p : α → Bool) :
    ∀ l : List α, ∀ x, l.find? p = some x →
      updateFirst p (fun _ => x) l = l := by
  intro l
  induction l with
  | nil => intro x hx; simp at hx
  | cons y ys ih =>
    intro x hfind
    by_cases hy : p y
    · rw [List.find?_cons_of_pos _ hy] at hfind
      simp [updateFirst, hy, (Option.some_inj.mp hfind).symm]
    · rw [List.find?_cons_of_neg _ hy] at hfind
      simp [updateFirst, hy, ih x hfind]

/-- Two successive first-match updates with the same predicate compose,
provided the first update does not destroy the match. -/
theorem updateFirst_updateFirst {α : Type} (p : α → Bool) (f g : α → α)
    (hpf : ∀ a, p a = true → p (f a) = true) :
    ∀ l : List α,
      updateFirst p g (updateFirst p f l) = updateFirst p (fun a => g (f a)) l := by
  intro l
  induction l with
  | nil => rfl
  | cons y ys ih =>
    by_cases hy : p y
    · simp [updateFirst, hy, hpf y hy]
    · simp [updateFirst, hy, ih]

/-- `find?` on the updated list returns the updated element when the first
update replaced the match by a still-matching value. -/
theorem find?_updateFirst {α : Type} (p : α → Bool) (y : α) (hpy : p y = true) :
    ∀ l : List α, ∀ x, l.find? p = some x →
      (updateFirst p (fun _ => y) l).find? p = some y := by
  intro l
  induction l with
  | nil => intro x hx; simp at hx
  | cons z zs ih =>
    intro x hfind
    by_cases hz : p z
    · simp [updateFirst, hz, List.find?_cons_of_pos _ hpy]
    · rw [List.find?_cons_of_neg _ hz] at hfind
      have hstep : updateFirst p (fun _ => y) (z :: zs) =
          z :: updateFirst p (fun _ => y) zs := by
        simp [updateFirst, hz]
      rw [hstep, List.find?_cons_of_neg _ hz]
      exact ih x hfind

/-- `find?` skips a prefix in which nothing matches. -/
theorem find?_append_of_none {α : Type} (p : α → Bool) :
    ∀ l m : List α, l.find? p = none → (l ++ m).find? p = m.find? p := by
  intro l
  induction l with
  | nil => intro m _; rfl
  | cons y ys ih =>
    intro m hfind
    by_cases hy : p y
    · rw [List.find?_cons_of_pos _ hy] at hfind; cases hfind
    · rw [List.find?_cons_of_neg _ hy] at hfind
      rw [List.cons_append, List.find?_cons_of_neg _ hy]
      exact ih m hfind

/-- C1: the claim states that every failed book request leaves all state
unchanged.  The legacy handler `slotbookig` violates this: booking the
normal category of a hospital whose normal count is 0 is rejected with
"Something Went Wrong", yet the counter decrement was already committed,
leaving the hospital at normal count -1. -/
theorem c1_legacy_failed_booking_mutates_state :
    MainPy.slotbookig c1db "p@x.com" "NormalBed" "AAA" "90" "Bob Kumar"
        "9876543210" "12 Main Street" = (MainPy.Outcome.somethingWentWrong, c1db2) ∧
    c1db2 ≠ c1db := by
  constructor
  · decide
  · decide

/-- C2: the claim states that no bed counter ever becomes negative under
book operations.  The legacy handler `slotbookig` decrements and commits
before checking availability, so booking the HICU category at HICU
count 0 drives the counter to -1. -/
theorem c2_legacy_booking_drives_counter_negative :
    ((MainPy.slotbookig c2db "q@x.com" "HICUBed" "BBB" "90" "Bob Kumar"
        "9876543210" "12 Main Street").2.hospitals.map
          MainPy.Hospitaldata.hicubed = [-1]) ∧
    (c2db.hospitals.map MainPy.Hospitaldata.hicubed = [0]) ∧
    ¬ (0 : Int) ≤ -1 := by
  refine ⟨by decide, by decide, by decide⟩

/-- C3: the claim states that N concurrent book calls against a category
with K available units yield exactly K grants (for N = 2, K = 1: exactly
one grant).  The handlers' check-then-act pattern violates this: under
the interleaving in which both requests read the counter (value 1) before
either writes, both requests are granted. -/
theorem c3_concurrent_bookings_both_granted :
    Concurrency.runSched 1 [Concurrency.Phase.ready, Concurrency.Phase.ready]
        [0, 1, 0, 1] =
      (0, [Concurrency.Phase.finished true, Concurrency.Phase.finished true]) ∧
    Concurrency.grants (Concurrency.runSched 1
        [Concurrency.Phase.ready, Concurrency.Phase.ready] [0, 1, 0, 1]).2 = 2 ∧
    ¬ Concurrency.grants (Concurrency.runSched 1
        [Concurrency.Phase.ready, Concurrency.Phase.ready] [0, 1, 0, 1]).2 = 1 := by
  refine ⟨by decide, by decide, by decide⟩

/-- C4 counterexample: the claim states that every mutation of a
hospital's bed counters writes a ledger (`Trig`) entry in the same
transaction, keeping the latest entry's "after" value equal to the live
counter.  The legacy admin edit `hedit` changes the normal count from 5
to 4 and writes no ledger entry at all: the ledger is unchanged and its
latest entry still records 5 while the live counter is 4. -/
theorem c4_hedit_mutates_without_ledger_entry :
    MainPy.hedit c4db 1 "AAA" "Alpha" 4 2 3 4 = some c4db2 ∧
    c4db2.trigs = c4db.trigs ∧
    (c4db2.trigs.getLast?).map MainPy.Trig.normalbed = some 5 ∧
    c4db2.hospitals.map MainPy.Hospitaldata.normalbed = [4] := by
  refine ⟨by decide, by decide, by decide, by decide⟩

/-- C7: the claim states that a book request with an unrecognized bed
category is rejected without reaching an unbound value or an unguarded
error branch.  In the legacy handler the unrecognized category falls into
`else: pass`, after which `if (seat > 0 and check)` references the
never-assigned local `seat` and raises `UnboundLocalError`; the
validation service, by contrast, rejects the same category cleanly. -/
theorem c7_legacy_unknown_bedtype_hits_unbound_local :
    MainPy.slotbookig c7db "p@x.com" "SofaBed" "CCC" "90" "Bob Kumar"
        "9876543210" "12 Main Street" = (MainPy.Outcome.unboundLocalError, c7db) ∧
    (ValidationService.validate_bed_booking (fun _ => true)
      { bedtype := some "SofaBed", hcode := some "CCC", pname := some "Bob Kumar",
        pphone := some "9876543210", paddress := some "12 Main Street",
        email := some "bob@example.com", spo2 := some "90" }).errors.bedtype = true ∧
    (ValidationService.validate_bed_booking (fun _ => true)
      { bedtype := some "SofaBed", hcode := some "CCC", pname := some "Bob Kumar",
        pphone := some "9876543210", paddress := some "12 Main Street",
        email := some "bob@example.com", spo2 := some "90" }).valid = false := by
  refine ⟨by decide, by decide, by decide⟩

/-- C9: the claim states that a book request whose email already appears
in an existing booking is rejected before any counter change.  In the
legacy handler the insert into `Bookingpatient` omits the `email` column
(despite its `unique=True, nullable=False` declaration), so the stored
row's email is `None`, the duplicate check `filter_by(email=email)` never
matches, and a second request with the same email is granted again:
the counter is decremented twice and two rows exist. -/
theorem c9_duplicate_email_booked_twice :
    c9r1.1 = MainPy.Outcome.booked ∧
    c9r1.2.bookings.map MainPy.Bookingpatient.email = [none] ∧
    c9r2.1 = MainPy.Outcome.booked ∧
    ¬ c9r2.1 = MainPy.Outcome.alreadyRegistered ∧
    c9r2.2.hospitals.map MainPy.Hospitaldata.normalbed = [3] ∧
    c9r2.2.bookings.length = 2 := by
  refine ⟨by decide, by decide, by decide, by decide, by decide, by decide⟩

/-- Generalization of `updateFirst_eq_map` where only the image of the
unique match matters. -/
theorem updateFirst_eq_map_single {α : Type} (p : α → Bool) (f g : α → α) (x : α)
    (l : List α) (hc : l.countP p ≤ 1) (hf : l.find? p = some x)
    (hfg : f x = g x) :
    updateFirst p f l = l.map (fun a => if p a then g a else a) := by
  rw [updateFirst_eq_map p f l hc]
  apply List.map_congr_left
  intro a ha
  by_cases hpa : p a = true
  · have hax := eq_of_find?_of_countP_le_one p l hc x hf a ha hpa
    simp [hpa, hax, hfg]
  · simp [hpa]

theorem bedDec_hcode (bt : String) (h : EnhancedMain.Hospitaldata) :
    (EnhancedMain.bedDec bt h).hcode = h.hcode := by
  unfold EnhancedMain.bedDec
  split_ifs <;> rfl

theorem bedInc_bedDec (bt : String) (h : EnhancedMain.Hospitaldata) :
    EnhancedMain.bedInc bt (EnhancedMain.bedDec bt h) = h := by
  cases h
  unfold EnhancedMain.bedDec EnhancedMain.bedInc
  split_ifs <;> simp_all

/-- Characterization of a successful run of the legacy booking handler:
no prior booking row carries the email, the hospital row was found, the
inserted row (with `email` omitted, hence `none`) is appended, no audit
row is written, and the hospital list received exactly the committed
per-category decrement. -/
theorem slotbookig_booked_spec (db : MainPy.DB)
    (email bedtype hcode spo2 pname pphone paddress : String)
    (out : MainPy.Outcome) (db2 : MainPy.DB)
    (heq : MainPy.slotbookig db email bedtype hcode spo2 pname pphone paddress
      = (out, db2))
    (hout : out = MainPy.Outcome.booked) :
    db.bookings.find? (fun b => b.email == some email) = none ∧
    ∃ dbsqlb : MainPy.Hospitaldata,
      db.hospitals.find? (fun h => h.hcode == hcode) = some dbsqlb ∧
      db2.bookings = db.bookings ++
        [{ bedtype := bedtype, hcode := hcode, spo2 := spo2, pname := pname,
           pphone := pphone, paddress := paddress, email := none }] ∧
      db2.trigs = db.trigs ∧
      ((bedtype = "NormalBed" ∧ 0 < dbsqlb.normalbed ∧
         db2.hospitals = updateFirst (fun h => h.hcode == hcode)
           (fun h => { h with normalbed := dbsqlb.normalbed - 1 }) db.hospitals) ∨
       (bedtype = "HICUBed" ∧ 0 < dbsqlb.hicubed ∧
         db2.hospitals = updateFirst (fun h => h.hcode == hcode)
           (fun h => { h with hicubed := dbsqlb.hicubed - 1 }) db.hospitals) ∨
       (bedtype = "ICUBed" ∧ 0 < dbsqlb.icubed ∧
         db2.hospitals = updateFirst (fun h => h.hcode == hcode)
           (fun h => { h with icubed := dbsqlb.icubed - 1 }) db.hospitals) ∨
       (bedtype = "VENTILATORBed" ∧ 0 < dbsqlb.vbed ∧
         db2.hospitals = updateFirst (fun h => h.hcode == hcode)
           (fun h => { h with vbed := dbsqlb.vbed - 1 }) db.hospitals)) := by
  subst hout
  simp only [MainPy.slotbookig] at heq
  split at heq
  · simp at heq
  · rename_i hbk
    split at heq
    · simp at heq
    · rename_i dbsqlb hfind
      refine ⟨hbk, dbsqlb, hfind, ?_⟩
      by_cases h1 : (bedtype == "NormalBed") = true
      · simp only [h1, if_true] at heq
        split at heq
        · simp at heq
        · split at heq
          · rename_i hseat
            rw [Prod.mk.injEq] at heq
            obtain ⟨-, h2⟩ := heq
            subst h2
            refine ⟨rfl, rfl, Or.inl ⟨by simpa using h1, by omega, rfl⟩⟩
          · simp at heq
      · by_cases h2 : (bedtype == "HICUBed") = true
        · simp only [h1, h2, if_true, if_false, Bool.false_eq_true] at heq
          split at heq
          · simp at heq
          · split at heq
            · rename_i hseat
              rw [Prod.mk.injEq] at heq
              obtain ⟨-, hh⟩ := heq
              subst hh
              exact ⟨rfl, rfl, Or.inr (Or.inl ⟨by simpa using h2, by omega, rfl⟩)⟩
            · simp at heq
        · by_cases h3 : (bedtype == "ICUBed") = true
          · simp only [h1, h2, h3, if_true, if_false, Bool.false_eq_true] at heq
            split at heq
            · simp at heq
            · split at heq
              · rename_i hseat
                rw [Prod.mk.injEq] at heq
                obtain ⟨-, hh⟩ := heq
                subst hh
                exact ⟨rfl, rfl,
                  Or.inr (Or.inr (Or.inl ⟨by simpa using h3, by omega, rfl⟩))⟩
              · simp at heq
          · by_cases h4 : (bedtype == "VENTILATORBed") = true
            · simp only [h1, h2, h3, h4, if_true, if_false, Bool.false_eq_true] at heq
              split at heq
              · simp at heq
              · split at heq
                · rename_i hseat
                  rw [Prod.mk.injEq] at heq
                  obtain ⟨-, hh⟩ := heq
                  subst hh
                  exact ⟨rfl, rfl,
                    Or.inr (Or.inr (Or.inr ⟨by simpa using h4, by omega, rfl⟩))⟩
                · simp at heq
            · simp only [h1, h2, h3, h4, if_false, Bool.false_eq_true] at heq
              simp at heq

/-- C10: the SpO2 validator accepts exactly the values whose Python
`int(...)` parse lands in [70, 100] (a `None` value is rejected); the
booking validator raises no spo2 error for an absent or empty SpO2
because spo2 is not among the required fields and the per-field check is
guarded by truthiness; and a concrete booking request with every other
field valid and no SpO2 at all passes validation. -/
theorem c10_spo2_validation :
    (∀ s : Option String,
      ValidationService.validate_spo2 s = true ↔
        ∃ v : Int, s.bind ValidationService.pyInt = some v ∧ 70 ≤ v ∧ v ≤ 100) ∧
    (∀ (emailOk : String → Bool) (d : ValidationService.BookingData),
      d.spo2 = none ∨ d.spo2 = some "" →
        (ValidationService.validate_bed_booking emailOk d).errors.spo2 = false ∧
        "spo2" ∉ (ValidationService.validate_bed_booking emailOk d).errors.missing) ∧
    (ValidationService.validate_bed_booking (fun _ => true)
      { bedtype := some "Normal", hcode := some "AAA", pname := some "Bob Kumar",
        pphone := some "9876543210", paddress := some "12 Main Street",
        email := some "bob@example.com", spo2 := none }).valid = true := by
  refine ⟨?_, ?_, by decide⟩
  · intro s
    cases s with
    | none => simp [ValidationService.validate_spo2]
    | some str =>
      cases hp : ValidationService.pyInt str with
      | none => simp [ValidationService.validate_spo2, hp]
      | some v =>
        simp [ValidationService.validate_spo2, hp, Bool.and_eq_true,
          decide_eq_true_iff]
  · intro emailOk d hsp
    have hspo2 : ValidationService.isTruthy d.spo2 = false := by
      rcases hsp with h | h <;> simp [h, ValidationService.isTruthy]
    constructor
    · simp [ValidationService.validate_bed_booking, hspo2]
    · simp only [ValidationService.validate_bed_booking]
      intro hmem
      simp only [List.mem_append] at hmem
      rcases hmem with ((((h | h) | h) | h) | h) | h <;> revert h <;>
        split_ifs <;> simp

/-- C10 witness: the absent-SpO2 half applied at a concrete booking. -/
theorem c10_spo2_validation_witness :
    (ValidationService.validate_bed_booking (fun _ => true)
      { bedtype := some "Normal", hcode := some "AAA", pname := some "Bob Kumar",
        pphone := some "9876543210", paddress := some "12 Main Street",
        email := some "bob@example.com", spo2 := none }).errors.spo2 = false ∧
    "spo2" ∉ (ValidationService.validate_bed_booking (fun _ => true)
      { bedtype := some "Normal", hcode := some "AAA", pname := some "Bob Kumar",
        pphone := some "9876543210", paddress := some "12 Main Street",
        email := some "bob@example.com", spo2 := none }).errors.missing :=
  c10_spo2_validation.2.1 (fun _ => true)
    { bedtype := some "Normal", hcode := some "AAA", pname := some "Bob Kumar",
      pphone := some "9876543210", paddress := some "12 Main Street",
      email := some "bob@example.com", spo2 := none } (Or.inl rfl)


/-- The legacy booking handler never writes to the `Trig` table, on any
of its paths. -/
theorem slotbookig_trigs_unchanged :
    ∀ (db : MainPy.DB) (email bedtype hcode spo2 pname pphone paddress : String),
      (MainPy.slotbookig db email bedtype hcode spo2 pname pphone paddress).2.trigs
        = db.trigs := by
  intro db email bedtype hcode spo2 pname pphone paddress
  simp only [MainPy.slotbookig]
  split
  · rfl
  · split
    · rfl
    · split
      · split <;> rfl
      · rename_i seat db1 hx
        have hdb1 : db1.trigs = db.trigs := by
          split at hx
          · rw [Option.some_inj, Prod.mk.injEq] at hx
            rw [← hx.2]
          · split at hx
            · rw [Option.some_inj, Prod.mk.injEq] at hx
              rw [← hx.2]
            · split at hx
              · rw [Option.some_inj, Prod.mk.injEq] at hx
                rw [← hx.2]
              · split at hx
                · rw [Option.some_inj, Prod.mk.injEq] at hx
                  rw [← hx.2]
                · simp at hx
        split
        · exact hdb1
        · split
          · exact hdb1
          · exact hdb1

/-- Every run of the enhanced booking handler returns the database
unchanged: all its rejection paths do so by construction, and its one
transaction is unreachable and rolled back. -/
theorem slotbooking_state_unchanged :
    ∀ (emailOk : String → Bool) (formOk : Bool) (db : EnhancedMain.DB)
      (d : ValidationService.BookingData) (uid ip now : String),
      (EnhancedMain.slotbooking emailOk formOk db d uid ip now).2 = db := by
  intro emailOk formOk db d uid ip now
  simp only [EnhancedMain.slotbooking]
  split
  · rfl
  · split
    · rfl
    · split
      · rfl
      · split <;> rfl

/-- Characterization of a granted run of the spec-modelled `book`: the
hospital row was found with availability, the counter decrement is
committed, and one granted reservation row with the next id is
appended. -/
theorem book_granted_spec (db : EnhancedMain.DB)
    (hcode category requester now : String)
    (out : EnhancedMain.BookOutcome) (db2 : EnhancedMain.DB)
    (heq : EnhancedMain.book db hcode category requester now = (out, db2))
    (hout : out = EnhancedMain.BookOutcome.granted) :
    ∃ hospital : EnhancedMain.Hospitaldata,
      db.hospitals.find? (fun h => h.hcode == hcode) = some hospital ∧
      ¬ EnhancedMain.bedAvail category hospital ≤ 0 ∧
      db2.hospitals = updateFirst (fun h => h.hcode == hcode)
        (fun _ => EnhancedMain.bedDec category hospital) db.hospitals ∧
      ∃ r : EnhancedMain.Bookingpatient,
        db2.bookings = db.bookings ++ [r] ∧ r.id = db.bookings.length ∧
        r.booking_status = "granted" ∧ r.hcode = some hcode ∧
        r.bedtype = some category := by
  subst hout
  simp only [EnhancedMain.book] at heq
  split at heq
  · simp at heq
  · split at heq
    · simp at heq
    · rename_i hospital hfind
      split at heq
      · simp at heq
      · rename_i havail
        rw [Prod.mk.injEq] at heq
        have hdb2 := heq.2.symm
        exact ⟨hospital, hfind, havail, by rw [hdb2], _, by rw [hdb2],
          rfl, rfl, rfl, rfl⟩

/-- C6: a book request naming a nonexistent hospital code fails with the
dedicated not-found outcome and the state is returned unchanged (so no
counter changes and no ledger entry); the not-found outcome is a
different constructor from the insufficient-capacity outcome in both
handlers (legacy: "Hospital Code not exist" vs "Something Went Wrong";
enhanced: notFound vs noBeds).  For the legacy handler the request must
not be stopped earlier by the duplicate-email guard; for the enhanced
handler it must pass the WTForms gate and input validation. -/
theorem c6_ghost_hospital_distinct_not_found :
    (∀ (db : MainPy.DB) (email bedtype hcode spo2 pname pphone paddress : String),
      db.bookings.find? (fun b => b.email == some email) = none →
      db.hospitals.find? (fun h => h.hcode == hcode) = none →
      MainPy.slotbookig db email bedtype hcode spo2 pname pphone paddress
        = (MainPy.Outcome.hcodeNotExist, db)) ∧
    MainPy.Outcome.hcodeNotExist ≠ MainPy.Outcome.somethingWentWrong ∧
    (∀ (emailOk : String → Bool) (formOk : Bool) (db : EnhancedMain.DB)
        (d : ValidationService.BookingData) (uid ip now : String),
      formOk = true →
      (ValidationService.validate_bed_booking emailOk d).valid = true →
      db.hospitals.find? (fun h => h.hcode == d.hcode.getD "") = none →
      EnhancedMain.slotbooking emailOk formOk db d uid ip now
        = (EnhancedMain.Outcome.notFound, db)) ∧
    EnhancedMain.Outcome.notFound ≠ EnhancedMain.Outcome.noBeds := by
  refine ⟨?_, by decide, ?_, by decide⟩
  · intro db email bedtype hcode spo2 pname pphone paddress hbk hh
    simp [MainPy.slotbookig, hbk, hh]
  · intro emailOk formOk db d uid ip now hform hvalid hfind
    simp [EnhancedMain.slotbooking, hform, hvalid, hfind]

/-- C6 witness: concrete instances of both halves, at an empty database
and the hospital code GHOST. -/
theorem c6_ghost_hospital_distinct_not_found_witness :
    MainPy.slotbookig { hospitals := [], bookings := [], trigs := [] }
        "p@x.com" "NormalBed" "GHOST" "90" "Bob Kumar" "9876543210" "12 Main Street"
      = (MainPy.Outcome.hcodeNotExist,
         { hospitals := [], bookings := [], trigs := [] }) ∧
    EnhancedMain.slotbooking (fun _ => true) true
        { hospitals := [], bookings := [], trigs := [] }
        { bedtype := some "Normal", hcode := some "GHOST", pname := some "Bob Kumar",
          pphone := some "9876543210", paddress := some "12 Main Street",
          email := some "bob@example.com", spo2 := some "90" } "7" "1.2.3.4" "t"
      = (EnhancedMain.Outcome.notFound,
         { hospitals := [], bookings := [], trigs := [] }) :=
  ⟨c6_ghost_hospital_distinct_not_found.1
      { hospitals := [], bookings := [], trigs := [] }
      "p@x.com" "NormalBed" "GHOST" "90" "Bob Kumar" "9876543210" "12 Main Street"
      (by decide) (by decide),
   c6_ghost_hospital_distinct_not_found.2.2.1 (fun _ => true) true
      { hospitals := [], bookings := [], trigs := [] }
      { bedtype := some "Normal", hcode := some "GHOST", pname := some "Bob Kumar",
        pphone := some "9876543210", paddress := some "12 Main Street",
        email := some "bob@example.com", spo2 := some "90" } "7" "1.2.3.4" "t"
      rfl (by decide) (by decide)⟩

/-- C4 (amended): no handler in the source maintains the ledger-sync
property.  The legacy admin edit and the legacy booking handler mutate
bed counters without ever writing a `Trig` entry (the hedit
counterexample shows the ledger's latest entry then disagreeing with the
live counter), and the enhanced booking handler — the only code whose
text would write a `Trig` entry in the same transaction as a counter
change — never commits anything: its transaction is unreachable dead
code, so every one of its runs leaves the database unchanged. -/
theorem c4_no_ledger_write_on_any_mutation :
    (∀ (db : MainPy.DB) (pid : Nat) (hcode hname : String)
        (nbed hbed ibed vb : Int) (db2 : MainPy.DB),
      MainPy.hedit db pid hcode hname nbed hbed ibed vb = some db2 →
      db2.trigs = db.trigs) ∧
    (∀ (db : MainPy.DB) (email bedtype hcode spo2 pname pphone paddress : String),
      (MainPy.slotbookig db email bedtype hcode spo2 pname pphone paddress).2.trigs
        = db.trigs) ∧
    (∀ (emailOk : String → Bool) (formOk : Bool) (db : EnhancedMain.DB)
        (d : ValidationService.BookingData) (uid ip now : String),
      (EnhancedMain.slotbooking emailOk formOk db d uid ip now).2 = db) := by
  refine ⟨?_, slotbookig_trigs_unchanged, slotbooking_state_unchanged⟩
  intro db pid hcode hname nbed hbed ibed vb db2 heq
  simp only [MainPy.hedit] at heq
  split at heq
  · cases heq
  · rw [Option.some_inj] at heq
    rw [heq.symm]

/-- C4 witness: the amended claim applied at a concrete admin edit, a
concrete legacy booking and a concrete enhanced run. -/
theorem c4_no_ledger_write_on_any_mutation_witness :
    c4db2.trigs = c4db.trigs ∧
    (MainPy.slotbookig sampleLDB "p@x.com" "NormalBed" "EEE" "90" "Bob Kumar"
      "9876543210" "12 Main Street").2.trigs = sampleLDB.trigs ∧
    (EnhancedMain.slotbooking (fun _ => true) true sampleEDB sampleData
      "7" "1.2.3.4" "2026-01-01").2 = sampleEDB :=
  ⟨c4_no_ledger_write_on_any_mutation.1 c4db 1 "AAA" "Alpha" 4 2 3 4 c4db2
      (by decide),
   c4_no_ledger_write_on_any_mutation.2.1 sampleLDB "p@x.com" "NormalBed" "EEE"
      "90" "Bob Kumar" "9876543210" "12 Main Street",
   c4_no_ledger_write_on_any_mutation.2.2 (fun _ => true) true sampleEDB
      sampleData "7" "1.2.3.4" "2026-01-01"⟩

/-- C5: every successful booking in the source decrements exactly the
requested category of exactly the targeted hospital by one, leaves the
other three counters of that hospital and every counter of every other
hospital unchanged (the pointwise map over the hospital list), appends
exactly one booking row and writes no ledger row.  Every successful
booking is performed by the legacy handler: the enhanced handler's
success transaction is unreachable (its constructor call raises
`TypeError` on every submission), so the second conjunct proves that no
enhanced run ever changes a hospital row or a booking row, making the
claim vacuously true of that handler.  The `countP` premise reflects the
schema's `unique=True` on `hcode`. -/
theorem c5_successful_booking_frame :
    (∀ (db : MainPy.DB) (email bedtype hcode spo2 pname pphone paddress : String)
        (out : MainPy.Outcome) (db2 : MainPy.DB),
      db.hospitals.countP (fun h => h.hcode == hcode) ≤ 1 →
      MainPy.slotbookig db email bedtype hcode spo2 pname pphone paddress
        = (out, db2) →
      out = MainPy.Outcome.booked →
      db2.hospitals = db.hospitals.map (fun g =>
        if g.hcode == hcode then MainPy.bookDec bedtype g else g) ∧
      db2.bookings = db.bookings ++
        [{ bedtype := bedtype, hcode := hcode, spo2 := spo2, pname := pname,
           pphone := pphone, paddress := paddress, email := none }] ∧
      db2.trigs = db.trigs) ∧
    (∀ (emailOk : String → Bool) (formOk : Bool) (db : EnhancedMain.DB)
        (d : ValidationService.BookingData) (uid ip now : String),
      (EnhancedMain.slotbooking emailOk formOk db d uid ip now).2.hospitals
        = db.hospitals ∧
      (EnhancedMain.slotbooking emailOk formOk db d uid ip now).2.bookings
        = db.bookings) := by
  constructor
  · intro db email bedtype hcode spo2 pname pphone paddress out db2 hcount heq hout
    obtain ⟨hbk, dbsqlb, hfind, hbookings, htrigs, hcases⟩ :=
      slotbookig_booked_spec db email bedtype hcode spo2 pname pphone paddress
        out db2 heq hout
    refine ⟨?_, hbookings, htrigs⟩
    rcases hcases with ⟨hbt, hseat, hh⟩ | ⟨hbt, hseat, hh⟩ | ⟨hbt, hseat, hh⟩ |
      ⟨hbt, hseat, hh⟩ <;>
      (rw [hh]
       apply updateFirst_eq_map_single _ _ _ dbsqlb _ hcount hfind
       subst hbt
       simp [MainPy.bookDec])
  · intro emailOk formOk db d uid ip now
    constructor
    · rw [slotbooking_state_unchanged emailOk formOk db d uid ip now]
    · rw [slotbooking_state_unchanged emailOk formOk db d uid ip now]

/-- C5 witness: the frame property applied at one concrete legacy booking
and the no-mutation property at one concrete enhanced run. -/
theorem c5_successful_booking_frame_witness :
    ((MainPy.slotbookig sampleLDB "p@x.com" "NormalBed" "EEE" "90" "Bob Kumar"
        "9876543210" "12 Main Street").2.hospitals = sampleLDB.hospitals.map
          (fun g => if g.hcode == "EEE" then MainPy.bookDec "NormalBed" g else g) ∧
      (MainPy.slotbookig sampleLDB "p@x.com" "NormalBed" "EEE" "90" "Bob Kumar"
        "9876543210" "12 Main Street").2.bookings = sampleLDB.bookings ++
        [{ bedtype := "NormalBed", hcode := "EEE", spo2 := "90",
           pname := "Bob Kumar", pphone := "9876543210",
           paddress := "12 Main Street", email := none }] ∧
      (MainPy.slotbookig sampleLDB "p@x.com" "NormalBed" "EEE" "90" "Bob Kumar"
        "9876543210" "12 Main Street").2.trigs = sampleLDB.trigs) ∧
    ((EnhancedMain.slotbooking (fun _ => true) true sampleEDB sampleData
        "7" "1.2.3.4" "2026-01-01").2.hospitals = sampleEDB.hospitals ∧
      (EnhancedMain.slotbooking (fun _ => true) true sampleEDB sampleData
        "7" "1.2.3.4" "2026-01-01").2.bookings = sampleEDB.bookings) :=
  ⟨c5_successful_booking_frame.1 sampleLDB "p@x.com" "NormalBed" "EEE" "90"
      "Bob Kumar" "9876543210" "12 Main Street"
      (MainPy.slotbookig sampleLDB "p@x.com" "NormalBed" "EEE" "90" "Bob Kumar"
        "9876543210" "12 Main Street").1
      (MainPy.slotbookig sampleLDB "p@x.com" "NormalBed" "EEE" "90" "Bob Kumar"
        "9876543210" "12 Main Street").2
      (by decide) rfl (by decide),
   c5_successful_booking_frame.2 (fun _ => true) true sampleEDB sampleData
      "7" "1.2.3.4" "2026-01-01"⟩

/-- C8: for a granted reservation, booking and then releasing that
reservation restores the hospital list (in particular the booked
category's counter of the targeted hospital) to its exact pre-booking
value.  Both operations are modelled from the spec over the source's
enhanced data model: `release` is not implemented in the source at all,
and the source's only booking success transaction is unreachable dead
code, so the grant producer follows spec section 4.2 as well.  The
premise says no existing row already carries the id the insert will
assign. -/
theorem c8_book_then_release_restores_counter :
    ∀ (db : EnhancedMain.DB) (hcode category requester now now2 : String)
      (out : EnhancedMain.BookOutcome) (db2 : EnhancedMain.DB),
      (∀ b ∈ db.bookings, b.id ≠ db.bookings.length) →
      EnhancedMain.book db hcode category requester now = (out, db2) →
      out = EnhancedMain.BookOutcome.granted →
      (EnhancedMain.release db2 db.bookings.length now2).1
        = EnhancedMain.ReleaseOutcome.released ∧
      (EnhancedMain.release db2 db.bookings.length now2).2.hospitals
        = db.hospitals := by
  intro db hcode category requester now now2 out db2 hfresh heq hout
  obtain ⟨hospital, hfind, havail, hhosp, reservation, hbkapp, hid, hst, hrh, hrb⟩ :=
    book_granted_spec db hcode category requester now out db2 heq hout
  have hpre : db.bookings.find?
      (fun b => b.id == db.bookings.length) = none := by
    apply List.find?_eq_none.mpr
    intro b hb
    simpa using hfresh b hb
  have hfindb : db2.bookings.find? (fun b => b.id == db.bookings.length)
      = some reservation := by
    rw [hbkapp, find?_append_of_none _ _ _ hpre]
    exact List.find?_cons_of_pos _ (by simp [hid])
  have hrel : EnhancedMain.release db2 db.bookings.length now2
      = (EnhancedMain.ReleaseOutcome.released,
         { hospitals := updateFirst (fun h => h.hcode == reservation.hcode.getD "")
             (EnhancedMain.bedInc (reservation.bedtype.getD "")) db2.hospitals
         , bookings := updateFirst (fun b => b.id == db.bookings.length)
             (fun b => { b with booking_status := "released" }) db2.bookings
         , trigs := db2.trigs ++
             [{ hcode := reservation.hcode.getD ""
              , normalbed := 0, hicubed := 0, icubed := 0, vbed := 0
              , querys := "release_" ++
                  ValidationService.lower (reservation.bedtype.getD "")
              , date := now2, user_id := "", ip_address := "" }] }) := by
    simp only [EnhancedMain.release, hfindb]
    rw [if_neg (by simp [hst])]
  rw [hrel]
  refine ⟨rfl, ?_⟩
  show updateFirst (fun h => h.hcode == reservation.hcode.getD "")
      (EnhancedMain.bedInc (reservation.bedtype.getD "")) db2.hospitals
    = db.hospitals
  rw [hrh, hrb]
  simp only [Option.getD_some]
  rw [hhosp]
  rw [updateFirst_updateFirst _ _ _ ?hpf db.hospitals]
  case hpf =>
    intro a _
    rw [bedDec_hcode]
    simpa using List.find?_some hfind
  have hcollapse :
      (fun a : EnhancedMain.Hospitaldata =>
        EnhancedMain.bedInc category (EnhancedMain.bedDec category hospital))
      = fun _ : EnhancedMain.Hospitaldata => hospital :=
    funext fun _ => bedInc_bedDec _ hospital
  rw [hcollapse]
  exact updateFirst_find?_self _ db.hospitals hospital hfind

/-- C8 witness: book then release at a concrete hospital with two normal
beds; the hospital list returns to its pre-booking value. -/
theorem c8_book_then_release_restores_counter_witness :
    (EnhancedMain.release (EnhancedMain.book sampleEDB "AAA" "Normal"
        "bob@example.com" "2026-01-01").2 sampleEDB.bookings.length
        "2026-01-02").1 = EnhancedMain.ReleaseOutcome.released ∧
    (EnhancedMain.release (EnhancedMain.book sampleEDB "AAA" "Normal"
        "bob@example.com" "2026-01-01").2 sampleEDB.bookings.length
        "2026-01-02").2.hospitals = sampleEDB.hospitals :=
  c8_book_then_release_restores_counter sampleEDB "AAA" "Normal"
    "bob@example.com" "2026-01-01" "2026-01-02"
    (EnhancedMain.book sampleEDB "AAA" "Normal" "bob@example.com" "2026-01-01").1
    (EnhancedMain.book sampleEDB "AAA" "Normal" "bob@example.com" "2026-01-01").2
    (by intro b hb; simp [sampleEDB] at hb)
    rfl (by decide)
